import Mathlib

/-!
Verification development for the m-cage compositor core (src/main.cpp).

Native toolkit pointers are modelled as natural numbers; the null pointer is
`none`.  Pure fragments of the source are translated to Lean functions;
stateful fragments become explicit state-passing functions over small state
records.  External toolkit operations (wlroots / libwayland) that the claims
depend on are modelled from their contracts as stated in the specification,
each marked in its doc comment.
-/

/-- Pointer values of the native toolkit: `none` is the null pointer. -/
abbrev Ptr := Option Nat

/-- Model of the resource wrapper `w_ptr_wrapper_base` (src/main.cpp lines
42-78): it stores exactly one nullable native pointer `m_ptr`, which is
default-initialised to null (line 77). -/
structure w_ptr_wrapper_base where
  m_ptr : Ptr
deriving DecidableEq, Repr

/-- Default construction (line 46): the stored pointer is null. -/
def w_ptr_wrapper_base.default_init : w_ptr_wrapper_base := { m_ptr := none }

/-- Move construction (lines 49-51): the new wrapper takes the source's
pointer and the source's pointer is set to null.  The result is the pair
(constructed wrapper, source after the move). -/
def moveConstruct (other : w_ptr_wrapper_base) :
    w_ptr_wrapper_base × w_ptr_wrapper_base :=
  ({ m_ptr := other.m_ptr }, { m_ptr := none })

/-- Move assignment (lines 52-55): `std::swap(m_ptr, other.m_ptr)`.  The
result is the pair (assigned-to wrapper, source after the assignment). -/
def moveAssign (self other : w_ptr_wrapper_base) :
    w_ptr_wrapper_base × w_ptr_wrapper_base :=
  ({ m_ptr := other.m_ptr }, { m_ptr := self.m_ptr })

/-- Accessor `get` (lines 63-64): returns the stored pointer unchanged. -/
def w_ptr_wrapper_base.get (h : w_ptr_wrapper_base) : Ptr := h.m_ptr

/-- Destructor effect (lines 57-60): the list of pointers handed to the
resource's destroy operation — the stored pointer when non-null, nothing when
the wrapper is empty. -/
def destructorDestroys (h : w_ptr_wrapper_base) : List Nat := h.m_ptr.toList

/-- `try_create` (lines 66-72): when the creation primitive returns a
non-null pointer the wrapper is constructed around it, otherwise the empty
optional is returned and no wrapper is constructed. -/
def try_create (createResult : Ptr) : Option w_ptr_wrapper_base :=
  match createResult with
  | some p => some { m_ptr := some p }
  | none => none

/-- Instrumented lifecycle state for wrappers, in the style of the test
double toolkit the specification describes: `created` logs every non-null
pointer handed out by a creation primitive, `destroyed` logs every pointer
handed to a destroy operation, `handles` is the arena of live wrapper
slots (a destroyed slot is left holding the null pointer, on which a further
destruction is the wrapper's no-op case). -/
structure ResState where
  handles : List w_ptr_wrapper_base
  created : List Nat
  destroyed : List Nat
deriving DecidableEq, Repr

/-- Operations the lifecycle claims quantify over: a successful creation, a
failed creation, a move construction from slot `i`, a move assignment of
slot `j` into slot `i`, and a destruction of slot `i`. -/
inductive ResOp where
  | createOk
  | createFail
  | moveConstructFrom (i : Nat)
  | moveAssignOp (i j : Nat)
  | destruct (i : Nat)
deriving DecidableEq, Repr

/-- Initial lifecycle state: no handles, no create or destroy calls. -/
def resInit : ResState := { handles := [], created := [], destroyed := [] }

/-- One lifecycle step.  Creation hands out a fresh pointer (successive
naturals, so every created pointer is distinct); the wrapper operations are
exactly `moveConstruct`, `moveAssign` and the destructor effect above. -/
def step (op : ResOp) (s : ResState) : ResState :=
  match op with
  | .createOk =>
      let p := s.created.length
      { s with
          created := s.created ++ [p],
          handles := s.handles ++ [{ m_ptr := some p }] }
  | .createFail => s
  | .moveConstructFrom i =>
      match s.handles[i]? with
      | some src =>
          { s with handles :=
              (s.handles.set i { m_ptr := none }) ++ [{ m_ptr := src.m_ptr }] }
      | none => s
  | .moveAssignOp i j =>
      match s.handles[i]?, s.handles[j]? with
      | some a, some b =>
          { s with handles :=
              (s.handles.set i { m_ptr := b.m_ptr }).set j { m_ptr := a.m_ptr } }
      | _, _ => s
  | .destruct i =>
      match s.handles[i]? with
      | some x =>
          { s with
              handles := s.handles.set i { m_ptr := none },
              destroyed := s.destroyed ++ destructorDestroys x }
      | none => s

/-- Run a list of lifecycle operations from the initial state. -/
def runOps (ops : List ResOp) : ResState :=
  ops.foldl (fun t op => step op t) resInit

/-- Multiset holding the pointer owned by one wrapper (empty when null). -/
def optM (h : w_ptr_wrapper_base) : Multiset Nat :=
  match h.m_ptr with
  | some p => {p}
  | none => 0

/-- Multiset of all pointers currently owned by live wrapper slots. -/
def liveM : List w_ptr_wrapper_base → Multiset Nat
  | [] => 0
  | h :: t => optM h + liveM t

/-- Lifecycle invariant: every pointer handed out by a creation primitive is
either still owned by exactly one live slot or has been destroyed, and the
created pointers are pairwise distinct (an initial segment of ℕ). -/
def ResInv (s : ResState) : Prop :=
  (s.created : Multiset Nat) = (s.destroyed : Multiset Nat) + liveM s.handles
  ∧ ∃ n, s.created = List.range n

/-!
Intrusive listener lists.  `detail::listener_base` (src/main.cpp lines
237-267) embeds a `wl_listener` whose `link` is spliced into the delivery
list of a `wl_signal`; its destructor calls `wl_list_remove` on that link
unconditionally.  The list operations below are libwayland's `wl_list`
primitives, modelled from their contracts (the intrusive doubly linked list
the specification's Subscription invariant speaks about).  Memory is a pair
of pointer maps over node identifiers.
-/

/-- Link memory: for each node identifier, its `next` and `prev` pointers
(`none` is the null pointer). -/
structure LinkMem where
  nxt : Nat → Option Nat
  prv : Nat → Option Nat

/-- Write the `next` pointer of node `a`. -/
def setNxt (m : LinkMem) (a : Nat) (v : Option Nat) : LinkMem :=
  { m with nxt := fun x => if x = a then v else m.nxt x }

/-- Write the `prev` pointer of node `a`. -/
def setPrv (m : LinkMem) (a : Nat) (v : Option Nat) : LinkMem :=
  { m with prv := fun x => if x = a then v else m.prv x }

/-- Memory in which every link pointer is null. -/
def memNull : LinkMem := { nxt := fun _ => none, prv := fun _ => none }

/-- Modelled from the spec (libwayland contract): `wl_list_init` makes node
`l` a self-linked empty list head. -/
def wl_list_init (m : LinkMem) (l : Nat) : LinkMem :=
  setPrv (setNxt m l (some l)) l (some l)

/-- Modelled from the spec (libwayland contract): `wl_list_insert list elm`
splices `elm` right after `list`:  `elm->prev = list; elm->next =
list->next; list->next = elm; elm->next->prev = elm;`.  Note it does not
unlink `elm` from any list it was on before. -/
def wl_list_insert (m : LinkMem) (list elm : Nat) : LinkMem :=
  let m1 := setPrv m elm (some list)
  let m2 := setNxt m1 elm (m1.nxt list)
  let m3 := setNxt m2 list (some elm)
  match m3.nxt elm with
  | some nx => setPrv m3 nx (some elm)
  | none => m3

/-- Modelled from the spec (libwayland contract): `wl_list_remove elm`
unlinks `elm` from the list its own pointers designate and nulls its
pointers: `elm->prev->next = elm->next; elm->next->prev = elm->prev;
elm->next = elm->prev = NULL;`. -/
def wl_list_remove (m : LinkMem) (elm : Nat) : LinkMem :=
  let m1 :=
    match m.prv elm with
    | some p => setNxt m p (m.nxt elm)
    | none => m
  let m2 :=
    match m1.nxt elm with
    | some n => setPrv m1 n (m1.prv elm)
    | none => m1
  setPrv (setNxt m2 elm none) elm none

/-- Modelled from the spec (libwayland contract): `wl_signal_add` appends the
listener's link at the tail of the signal's delivery list, i.e. inserts it
after `listener_list.prev`. -/
def wl_signal_add (m : LinkMem) (signalHead listener : Nat) : LinkMem :=
  match m.prv signalHead with
  | some p => wl_list_insert m p listener
  | none => m

/-- Walk the delivery list from `cur` for at most `fuel` steps, reporting
whether node `x` is visited before the walk returns to `head` (this is the
traversal `wl_signal_emit` performs to deliver an event). -/
def memberAux (m : LinkMem) (head x : Nat) : Nat → Option Nat → Bool
  | 0, _ => false
  | _, none => false
  | fuel + 1, some cur =>
      if cur = head then false
      else if cur = x then true
      else memberAux m head x fuel (m.nxt cur)

/-- Membership of node `x` on the delivery list headed by `head`. -/
def memberOf (m : LinkMem) (head x fuel : Nat) : Bool :=
  memberAux m head x fuel (m.nxt head)

/-!
New-output handling and frame completion (src/main.cpp lines 319, 334-358
and 416-425).  The server state below keeps exactly the fields those
handlers touch: the single shared `m_last_output` field, the single shared
frame listener (recorded by the list of frame signals it has been added to),
the output layout, and the scene-output registry.  Commits of transient
output configurations are logged together with their success flag; the code
does not inspect that flag.
-/

/-- One committed transient output configuration: the output it was applied
to, the enabled flag and mode that were set on the `wlr_output_state`, and
whether `wlr_output_commit_state` succeeded. -/
structure OutputCommit where
  output : Nat
  enabled : Bool
  mode : Option Nat
  ok : Bool
deriving DecidableEq, Repr

/-- Server-side output/scene state (fields of `class server` used by the
new-output and frame handlers). -/
structure CState where
  m_last_output : Option Nat
  frameListenerSignals : List Nat
  layoutOutputs : List Nat
  sceneOutputs : List (Nat × Nat)
  nextSceneOutput : Nat
  commits : List OutputCommit
deriving DecidableEq, Repr

/-- Server state right after construction: no outputs known. -/
def serverInitC : CState :=
  { m_last_output := none, frameListenerSignals := [], layoutOutputs := [],
    sceneOutputs := [], nextSceneOutput := 0, commits := [] }

/-- Transient configuration built at lines 339-344: `wlr_output_state_init`
leaves the state unset, `wlr_output_state_set_enabled(true)` is always
applied, and the mode is set only when a preferred mode exists. -/
def build_output_state (preferredMode : Option Nat) : OutputCommit → OutputCommit :=
  fun c =>
    let c1 := { c with enabled := true }
    match preferredMode with
    | some m => { c1 with mode := some m }
    | none => c1

/-- Handler `m_listener_new_output` (lines 334-358) for an output with the
given preferred mode, where `commitOk` is what `wlr_output_commit_state`
returns.  The code never inspects `commitOk`: it stores the output in
`m_last_output`, adds the shared frame listener to this output's frame
signal, adds the output to the layout and creates and registers a fresh
scene-output, unconditionally. -/
def m_listener_new_output (s : CState) (output : Nat)
    (preferredMode : Option Nat) (commitOk : Bool) : CState :=
  let cfg := build_output_state preferredMode
    { output := output, enabled := false, mode := none, ok := commitOk }
  let s1 := { s with commits := s.commits ++ [cfg] }
  let s2 := { s1 with m_last_output := some output }
  let s3 := { s2 with frameListenerSignals := s2.frameListenerSignals ++ [output] }
  let s4 := { s3 with layoutOutputs := s3.layoutOutputs ++ [output] }
  { s4 with
      sceneOutputs := s4.sceneOutputs ++ [(output, s4.nextSceneOutput)],
      nextSceneOutput := s4.nextSceneOutput + 1 }

/-- Modelled from the spec (wlroots contract): `wlr_scene_get_scene_output`
returns the scene-output registered for the given output, if any. -/
def wlr_scene_get_scene_output (s : CState) (output : Nat) : Option Nat :=
  (s.sceneOutputs.find? (fun q => q.1 == output)).map Prod.snd

/-- Handler `m_listener_output_frame` (lines 416-425): whichever output's
frame signal fired, it looks up the scene-output of `m_last_output` and
commits it; the returned value is the scene-output that gets committed and
sent frame-done. -/
def m_listener_output_frame (s : CState) : Option Nat :=
  match s.m_last_output with
  | some o => wlr_scene_get_scene_output s o
  | none => none

/-!
Cursor and pointer-focus handling (src/main.cpp lines 379-396).  Layout
coordinates are modelled as integers.  The clamping performed by
`wlr_cursor_move` is modelled from the spec's contract for the external
toolkit: the cursor position is clamped to the union of configured output
regions (the closest point of the output layout).
-/

/-- One output's rectangle in layout space. -/
structure Box where
  x : Int
  y : Int
  width : Int
  height : Int
deriving DecidableEq, Repr

/-- Clamp `v` into the closed interval from `lo` to `hi`. -/
def clampCoord (lo hi v : Int) : Int := max lo (min hi v)

/-- Closest point of one box to `p` (per-coordinate clamping). -/
def Box.closest (b : Box) (p : Int × Int) : Int × Int :=
  (clampCoord b.x (b.x + b.width) p.1, clampCoord b.y (b.y + b.height) p.2)

/-- Squared euclidean distance between two points. -/
def sqDist (p q : Int × Int) : Int :=
  (p.1 - q.1) * (p.1 - q.1) + (p.2 - q.2) * (p.2 - q.2)

/-- Modelled from the spec: the closest point of the union of the configured
output regions to `p` (the toolkit's output-layout closest-point operation,
used by the cursor to clamp its position).  With no configured region the
point is returned unchanged. -/
def closestPoint (region : List Box) (p : Int × Int) : Int × Int :=
  match region with
  | [] => p
  | b :: rest =>
      rest.foldl
        (fun best bx =>
          let c := Box.closest bx p
          if sqDist c p < sqDist best p then c else best)
        (b.closest p)

/-- Active cursor image: either a theme image loaded by name through the
xcursor manager, or a client-supplied surface with its hotspot. -/
inductive CursorImage where
  | xcursorImage (name : String)
  | surfaceImage (surface : Option Nat) (hotspot_x hotspot_y : Int)
deriving DecidableEq, Repr

/-- Theme image name the motion handler re-applies on every sample. -/
def defaultCursorName : String := "default"

/-- Input-side server state: the union of output regions the cursor is
clamped to, the cursor position and active image, and the seat's currently
focused pointer client. -/
structure InputState where
  region : List Box
  pos : Int × Int
  image : CursorImage
  focusedClient : Option Nat
deriving DecidableEq, Repr

/-- Modelled from the spec (wlroots contract): `wlr_cursor_move` advances
the cursor by the event's relative delta and clamps the result to the union
of configured output regions. -/
def wlr_cursor_move (s : InputState) (dx dy : Int) : InputState :=
  { s with pos := closestPoint s.region (s.pos.1 + dx, s.pos.2 + dy) }

/-- Handler `m_listener_cursor_motion` (lines 391-396): move the cursor by
the event delta, then `set_xcursor(manager, "default")`. -/
def m_listener_cursor_motion (s : InputState) (dx dy : Int) : InputState :=
  let s1 := wlr_cursor_move s dx dy
  { s1 with image := CursorImage.xcursorImage defaultCursorName }

/-- Handler `m_listener_request_cursor` (lines 379-386): replace the cursor
image with the client-supplied surface and hotspot exactly when the
requesting seat client is the seat's currently focused pointer client;
otherwise do nothing. -/
def m_listener_request_cursor (s : InputState) (seat_client surface : Option Nat)
    (hotspot_x hotspot_y : Int) : InputState :=
  if s.focusedClient = seat_client then
    { s with image := CursorImage.surfaceImage surface hotspot_x hotspot_y }
  else s

/-!
Lazy creation of the display's secondary protocol objects (src/main.cpp
lines 94-125 and 152-156).  Each `init_*` member checks the corresponding
field for null, calls the external create primitive only in that case, and
returns the field.  The `created` argument is the pointer the external
create primitive would return; the `*_creates` counters instrument how many
times each create primitive has been called.
-/

/-- Fields of `class display` holding the lazily created protocol objects,
instrumented with creation counters. -/
structure display_state where
  m_xdg_shell : Ptr
  m_compositor : Ptr
  m_subcompositor : Ptr
  m_data_device_manager : Ptr
  xdg_shell_creates : Nat
  compositor_creates : Nat
  subcompositor_creates : Nat
  data_device_manager_creates : Nat
deriving DecidableEq, Repr

/-- Display state right after `wl_display` creation: all four protocol
object fields are null and no create primitive has run. -/
def display_state.initial : display_state :=
  { m_xdg_shell := none, m_compositor := none, m_subcompositor := none,
    m_data_device_manager := none, xdg_shell_creates := 0,
    compositor_creates := 0, subcompositor_creates := 0,
    data_device_manager_creates := 0 }

/-- `display::init_xdg_shell` (lines 94-98). -/
def init_xdg_shell (created : Ptr) (s : display_state) : display_state × Ptr :=
  if s.m_xdg_shell = none then
    ({ s with m_xdg_shell := created,
              xdg_shell_creates := s.xdg_shell_creates + 1 }, created)
  else (s, s.m_xdg_shell)

/-- `display::init_compositor` (lines 152-156). -/
def init_compositor (created : Ptr) (s : display_state) : display_state × Ptr :=
  if s.m_compositor = none then
    ({ s with m_compositor := created,
              compositor_creates := s.compositor_creates + 1 }, created)
  else (s, s.m_compositor)

/-- `display::init_subcompositor` (lines 107-111). -/
def init_subcompositor (created : Ptr) (s : display_state) : display_state × Ptr :=
  if s.m_subcompositor = none then
    ({ s with m_subcompositor := created,
              subcompositor_creates := s.subcompositor_creates + 1 }, created)
  else (s, s.m_subcompositor)

/-- `display::init_data_device_manager` (lines 113-117). -/
def init_data_device_manager (created : Ptr) (s : display_state) :
    display_state × Ptr :=
  if s.m_data_device_manager = none then
    ({ s with m_data_device_manager := created,
              data_device_manager_creates := s.data_device_manager_creates + 1 },
     created)
  else (s, s.m_data_device_manager)

/-!
Concrete states used by the counterexample and divergence theorems.
-/

/-- Server state after two outputs (identifiers 1 and 2) were discovered in
that order, both with no preferred mode and a successful commit. -/
def c1state : CState :=
  m_listener_new_output (m_listener_new_output serverInitC 1 none true) 2 none true

/-- Server state after one output (identifier 1, preferred mode 7) was
discovered and the commit of its transient configuration failed. -/
def c2state : CState := m_listener_new_output serverInitC 1 (some 7) false

/-- Link memory with two initialised frame-signal delivery lists (heads 1
and 2) and one listener node 3, before any binding. -/
def c4mem0 : LinkMem := wl_list_init (wl_list_init memNull 1) 2

/-- Link memory after the single shared frame listener (node 3) was added to
signal 1's delivery list and then, on the second new-output event, to signal
2's delivery list without being unlinked first. -/
def c4memAdded : LinkMem := wl_signal_add (wl_signal_add c4mem0 1 3) 2 3

/-- Link memory after the doubly added listener is destroyed
(`wl_list_remove` on its own link pointers, which designate list 2). -/
def c4memRemoved : LinkMem := wl_list_remove c4memAdded 3

/-- Input state with a single 0..1920 × 0..1080 output region, the cursor at
the origin showing a client-supplied image, and no focused client. -/
def c6s0 : InputState :=
  { region := [{ x := 0, y := 0, width := 1920, height := 1080 }],
    pos := (0, 0), image := CursorImage.surfaceImage (some 11) 0 0,
    focusedClient := none }

/-- Input state whose seat has pointer focus on client 4. -/
def c7sA : InputState :=
  { region := [{ x := 0, y := 0, width := 1920, height := 1080 }],
    pos := (0, 0), image := CursorImage.xcursorImage defaultCursorName,
    focusedClient := some 4 }

/-- Display state in which all four protocol objects are already created. -/
def c8full : display_state :=
  { m_xdg_shell := some 5, m_compositor := some 6, m_subcompositor := some 7,
    m_data_device_manager := some 8, xdg_shell_creates := 1,
    compositor_creates := 1, subcompositor_creates := 1,
    data_device_manager_creates := 1 }

/-!
Helper lemmas for the resource lifecycle invariant.
-/

lemma liveM_append (l1 l2 : List w_ptr_wrapper_base) :
    liveM (l1 ++ l2) = liveM l1 + liveM l2 := by
  induction l1 with
  | nil => simp [liveM]
  | cons a t ih => simp [liveM, ih, add_assoc]

lemma optM_mk (p : Ptr) : optM { m_ptr := p } = p.toList := by
  cases p <;> rfl

lemma liveM_set (l : List w_ptr_wrapper_base) (i : Nat)
    (x y : w_ptr_wrapper_base) (h : l[i]? = some y) :
    liveM (l.set i x) + optM y = liveM l + optM x := by
  induction l generalizing i with
  | nil => simp at h
  | cons a t ih =>
      cases i with
      | zero =>
          simp only [List.getElem?_cons_zero, Option.some.injEq] at h
          subst h
          simp only [List.set_cons_zero, liveM]
          abel
      | succ n =>
          simp only [List.getElem?_cons_succ] at h
          simp only [List.set_cons_succ, liveM, add_assoc, ih n h]

lemma liveM_set_none (l : List w_ptr_wrapper_base) (i : Nat)
    (y : w_ptr_wrapper_base) (h : l[i]? = some y) :
    liveM (l.set i { m_ptr := none }) + optM y = liveM l := by
  have := liveM_set l i { m_ptr := none } y h
  simpa [optM] using this

lemma liveM_swap (l : List w_ptr_wrapper_base) (i j : Nat)
    (a b : w_ptr_wrapper_base) (ha : l[i]? = some a) (hb : l[j]? = some b) :
    liveM ((l.set i { m_ptr := b.m_ptr }).set j { m_ptr := a.m_ptr }) = liveM l := by
  have hoptA : optM { m_ptr := a.m_ptr } = optM a := by cases a; rfl
  have hoptB : optM { m_ptr := b.m_ptr } = optM b := by cases b; rfl
  by_cases hij : i = j
  · subst hij
    rw [ha] at hb
    have hab : a = b := by injection hb
    subst hab
    rw [List.set_set]
    have h1 := liveM_set l i { m_ptr := a.m_ptr } a ha
    rw [hoptA] at h1
    exact add_right_cancel h1
  · have hj : j < l.length := by
      obtain ⟨h, _⟩ := List.getElem?_eq_some.mp hb
      exact h
    have hb' : (l.set i { m_ptr := b.m_ptr })[j]? = some b := by
      rw [List.getElem?_set_ne hij]
      exact hb
    have h1 := liveM_set l i { m_ptr := b.m_ptr } a ha
    have h2 := liveM_set (l.set i { m_ptr := b.m_ptr }) j { m_ptr := a.m_ptr } b hb'
    rw [hoptA, hoptB] at h1 h2
    rw [h1] at h2
    exact add_right_cancel h2

lemma coe_destructorDestroys (x : w_ptr_wrapper_base) :
    ((destructorDestroys x : List Nat) : Multiset Nat) = optM x := by
  cases x with
  | mk p => cases p <;> simp [destructorDestroys, optM]

lemma resInv_step (op : ResOp) (s : ResState) (hs : ResInv s) :
    ResInv (step op s) := by
  obtain ⟨hbal, n, hn⟩ := hs
  cases op with
  | createOk =>
      refine ⟨?_, n + 1, ?_⟩
      · show ((s.created ++ [s.created.length] : List Nat) : Multiset Nat)
          = (s.destroyed : Multiset Nat)
            + liveM (s.handles ++ [{ m_ptr := some s.created.length }])
        rw [← Multiset.coe_add, liveM_append, hbal]
        simp only [liveM, optM, Multiset.coe_singleton, add_zero]
        abel
      · show s.created ++ [s.created.length] = List.range (n + 1)
        rw [hn, List.length_range, List.range_succ]
  | createFail => exact ⟨hbal, n, hn⟩
  | moveConstructFrom i =>
      cases hget : s.handles[i]? with
      | none => simpa [step, hget] using ⟨hbal, n, hn⟩
      | some src =>
          simp only [step, hget]
          refine ⟨?_, n, hn⟩
          show (s.created : Multiset Nat) = (s.destroyed : Multiset Nat)
            + liveM ((s.handles.set i { m_ptr := none }) ++ [{ m_ptr := src.m_ptr }])
          rw [liveM_append, hbal]
          have hsrc : optM { m_ptr := src.m_ptr } = optM src := by cases src; rfl
          simp only [liveM, add_zero, hsrc]
          rw [← liveM_set_none s.handles i src hget]
  | moveAssignOp i j =>
      cases hgi : s.handles[i]? with
      | none => simpa [step, hgi] using ⟨hbal, n, hn⟩
      | some a =>
          cases hgj : s.handles[j]? with
          | none => simpa [step, hgi, hgj] using ⟨hbal, n, hn⟩
          | some b =>
              simp only [step, hgi, hgj]
              refine ⟨?_, n, hn⟩
              show (s.created : Multiset Nat) = (s.destroyed : Multiset Nat)
                + liveM ((s.handles.set i { m_ptr := b.m_ptr }).set j { m_ptr := a.m_ptr })
              rw [liveM_swap s.handles i j a b hgi hgj]
              exact hbal
  | destruct i =>
      cases hget : s.handles[i]? with
      | none => simpa [step, hget] using ⟨hbal, n, hn⟩
      | some x =>
          simp only [step, hget]
          refine ⟨?_, n, hn⟩
          show (s.created : Multiset Nat)
            = ((s.destroyed ++ destructorDestroys x : List Nat) : Multiset Nat)
              + liveM (s.handles.set i { m_ptr := none })
          rw [← Multiset.coe_add, coe_destructorDestroys, hbal,
            ← liveM_set_none s.handles i x hget]
          abel

lemma resInv_foldl (ops : List ResOp) (s : ResState) (hs : ResInv s) :
    ResInv (ops.foldl (fun t op => step op t) s) := by
  induction ops generalizing s with
  | nil => exact hs
  | cons op rest ih => exact ih _ (resInv_step op s hs)

lemma resInv_runOps (ops : List ResOp) : ResInv (runOps ops) :=
  resInv_foldl ops resInit ⟨by simp [resInit, liveM], 0, rfl⟩

/-- C3 counterexample: move-assigning from a wrapper holding pointer 2 into a
wrapper holding pointer 1 transfers pointer 2 to the destination, but the
source is left holding pointer 1 — it is not empty, contrary to the claim
that every move leaves the source empty. -/
theorem c3_counterexample :
    (moveAssign { m_ptr := some 1 } { m_ptr := some 2 }).1.m_ptr = some 2
    ∧ (moveAssign { m_ptr := some 1 } { m_ptr := some 2 }).2.m_ptr = some 1
    ∧ (moveAssign { m_ptr := some 1 } { m_ptr := some 2 }).2.m_ptr ≠ none := by
  refine ⟨rfl, rfl, ?_⟩
  decide

/-- C3 (amended): move construction transfers ownership and empties the
source; move assignment exchanges the two wrappers' pointers, so the
destination owns what the source owned, and the source afterwards owns the
destination's previous resource — the source ends up empty exactly when the
destination was empty before the assignment. -/
theorem c3_move_semantics (a b : w_ptr_wrapper_base) :
    (moveConstruct a).1.m_ptr = a.m_ptr
    ∧ (moveConstruct a).2.m_ptr = none
    ∧ (moveAssign a b).1.m_ptr = b.m_ptr
    ∧ (moveAssign a b).2.m_ptr = a.m_ptr
    ∧ ((moveAssign a b).2.m_ptr = none ↔ a.m_ptr = none) :=
  ⟨rfl, rfl, rfl, rfl, Iff.rfl⟩

/-- C5: a successful `try_create` wraps the non-null pointer the creation
primitive returned, so `get` yields it; a null creation result yields the
empty optional; destroying an empty wrapper destroys nothing; and over any
sequence of creations, moves and destructions whose final state holds no
live resource, the multiset of destroyed pointers equals the multiset of
created pointers — the counts agree and every created pointer is destroyed
exactly once. -/
theorem c5_create_destroy_balance (ops : List ResOp) (r : Nat)
    (h : w_ptr_wrapper_base) (hsucc : try_create (some r) = some h)
    (hdone : liveM (runOps ops).handles = 0) :
    h.get = some r
    ∧ try_create none = none
    ∧ destructorDestroys { m_ptr := none } = []
    ∧ ((runOps ops).created : Multiset Nat) = ((runOps ops).destroyed : Multiset Nat)
    ∧ (runOps ops).destroyed.length = (runOps ops).created.length
    ∧ ∀ q ∈ (runOps ops).created, (runOps ops).destroyed.count q = 1 := by
  obtain ⟨hbal, n, hn⟩ := resInv_runOps ops
  rw [hdone, add_zero] at hbal
  have hh : h = { m_ptr := some r } := by
    have : some { m_ptr := some r } = some h := hsucc
    injection this with h1
    exact h1.symm
  refine ⟨by rw [hh]; rfl, rfl, rfl, hbal, ?_, ?_⟩
  · have := congrArg Multiset.card hbal
    simpa [Multiset.coe_card] using this.symm
  · intro q hq
    have hcnt : ((runOps ops).created : Multiset Nat).count q
        = ((runOps ops).destroyed : Multiset Nat).count q := by rw [hbal]
    rw [Multiset.coe_count, Multiset.coe_count] at hcnt
    rw [← hcnt, hn]
    exact List.count_eq_one_of_mem (List.nodup_range n) (by rwa [hn] at hq)

/-- C5 witness: the sequence create–destroy balances at one create and one
destroy of pointer 0. -/
theorem c5_create_destroy_balance_witness :
    ((runOps [ResOp.createOk, ResOp.destruct 0]).created : Multiset Nat)
      = ((runOps [ResOp.createOk, ResOp.destruct 0]).destroyed : Multiset Nat) :=
  (c5_create_destroy_balance [ResOp.createOk, ResOp.destruct 0] 3
    { m_ptr := some 3 } rfl (by decide)).2.2.2.1

/-- C9: move assignment between two non-empty wrappers runs no destroy
operation — the destroy log is unchanged — and exchanges the two pointers;
the destination's previous pointer is afterwards owned by the source slot
and is destroyed exactly once, when that slot is destroyed. -/
theorem c9_move_assign_swap (s : ResState) (i j a b : Nat) (hij : i ≠ j)
    (ha : s.handles[i]? = some { m_ptr := some a })
    (hb : s.handles[j]? = some { m_ptr := some b })
    (hcount : s.destroyed.count a = 0) :
    (step (ResOp.moveAssignOp i j) s).destroyed = s.destroyed
    ∧ (step (ResOp.moveAssignOp i j) s).handles[i]? = some { m_ptr := some b }
    ∧ (step (ResOp.moveAssignOp i j) s).handles[j]? = some { m_ptr := some a }
    ∧ (step (ResOp.destruct j) (step (ResOp.moveAssignOp i j) s)).destroyed
        = s.destroyed ++ [a]
    ∧ (step (ResOp.destruct j) (step (ResOp.moveAssignOp i j) s)).destroyed.count a
        = 1 := by
  have hi : i < s.handles.length := by
    obtain ⟨h1, _⟩ := List.getElem?_eq_some.mp ha
    exact h1
  have hgi : (step (ResOp.moveAssignOp i j) s).handles[i]?
      = some { m_ptr := some b } := by
    simp only [step, ha, hb]
    rw [List.getElem?_set_ne (Ne.symm hij), List.getElem?_set_self (by simpa using hi)]
  have hgj : (step (ResOp.moveAssignOp i j) s).handles[j]?
      = some { m_ptr := some a } := by
    have hj : j < s.handles.length := by
      obtain ⟨h1, _⟩ := List.getElem?_eq_some.mp hb
      exact h1
    simp only [step, ha, hb]
    rw [List.getElem?_set_self (by simpa using hj)]
  have hd1 : (step (ResOp.moveAssignOp i j) s).destroyed = s.destroyed := by
    simp only [step, ha, hb]
  have hd2 : (step (ResOp.destruct j) (step (ResOp.moveAssignOp i j) s)).destroyed
      = s.destroyed ++ [a] := by
    generalize step (ResOp.moveAssignOp i j) s = s1 at hgj hd1
    simp only [step, hgj, destructorDestroys, Option.toList_some, hd1]
  refine ⟨hd1, hgi, hgj, hd2, ?_⟩
  rw [hd2]
  simp [List.count_append, hcount]

/-- C9 witness: in the two-handle state reached by two creations, assigning
slot 1 from slot 0 and then destroying slot 1 destroys pointer 0 once. -/
theorem c9_move_assign_swap_witness :
    (step (ResOp.destruct 1)
        (step (ResOp.moveAssignOp 0 1) (runOps [ResOp.createOk, ResOp.createOk]))).destroyed
      = (runOps [ResOp.createOk, ResOp.createOk]).destroyed ++ [0] :=
  (c9_move_assign_swap (runOps [ResOp.createOk, ResOp.createOk]) 0 1 0 1
    (by decide) (by decide) (by decide) (by decide)).2.2.2.1

/-- C10: `get` on an empty wrapper — default-constructed, just moved-from by
move construction, or with a null stored pointer — totally and
deterministically returns the null pointer. -/
theorem c10_get_on_empty (h : w_ptr_wrapper_base) :
    w_ptr_wrapper_base.default_init.get = none
    ∧ (moveConstruct h).2.get = none
    ∧ w_ptr_wrapper_base.get { m_ptr := none } = none :=
  ⟨rfl, rfl, rfl⟩

/-- C1 divergence, shown at the failing input: after outputs 1 and then 2
are discovered, output 1's scene-output is 0 and output 2's is 1, yet the
frame handler — whichever output's frame signal fired, the single shared
listener having been added to both signals — commits the scene-output of
`m_last_output`, i.e. output 2's scene-output 1, not output 1's own. -/
theorem c1_frame_uses_last_output :
    c1state.frameListenerSignals = [1, 2]
    ∧ wlr_scene_get_scene_output c1state 1 = some 0
    ∧ wlr_scene_get_scene_output c1state 2 = some 1
    ∧ m_listener_output_frame c1state = some 1
    ∧ m_listener_output_frame c1state ≠ wlr_scene_get_scene_output c1state 1 := by
  refine ⟨by decide, by decide, by decide, by decide, by decide⟩

/-- C2 counterexample: an output whose transient enable/mode commit fails
(`ok := false` is logged for it) is nevertheless added to the output layout
and gets a scene-output created and registered — the commit result is never
inspected. -/
theorem c2_counterexample :
    c2state.commits = [{ output := 1, enabled := true, mode := some 7, ok := false }]
    ∧ c2state.layoutOutputs = [1]
    ∧ wlr_scene_get_scene_output c2state 1 = some 0 := by
  refine ⟨by decide, by decide, by decide⟩

/-- C2 (amended): on a new-output event the handler adds the output to the
output layout and creates and registers a scene-output for it
unconditionally — the same registrations happen whether the commit of the
transient enable/mode configuration succeeded or failed. -/
theorem c2_registration_unconditional (s : CState) (o : Nat)
    (pm : Option Nat) (ok : Bool) :
    (m_listener_new_output s o pm ok).layoutOutputs = s.layoutOutputs ++ [o]
    ∧ (m_listener_new_output s o pm ok).sceneOutputs
        = s.sceneOutputs ++ [(o, s.nextSceneOutput)]
    ∧ (m_listener_new_output s o pm ok).commits
        = s.commits ++ [{ output := o, enabled := true, mode := pm, ok := ok }] := by
  refine ⟨rfl, rfl, ?_⟩
  cases pm <;> rfl

/-- C4 divergence, shown at the failing input: delivery lists 1 and 2 are
the frame signals of two discovered outputs and node 3 is the single shared
frame listener.  After the second new-output event re-adds node 3 to list 2
without unlinking it from list 1, node 3 is reachable on both delivery
lists — not exactly one; and after its destructor runs `wl_list_remove`,
list 1's head still points at the removed node. -/
theorem c4_double_bind_breaks_invariant :
    memberOf c4memAdded 1 3 5 = true
    ∧ memberOf c4memAdded 2 3 5 = true
    ∧ c4memRemoved.nxt 1 = some 3
    ∧ memberOf c4memRemoved 2 3 5 = false := by
  refine ⟨by decide, by decide, by decide, by decide⟩

/-- C6 counterexample: with a single 0..1920 × 0..1080 output region and the
cursor at the origin, motions by (2000, 0) and then (−100, 0) put the cursor
at (1820, 0) — the first motion clamps to 1920 and the second subtracts 100
— whereas the vector sum clamped to the region is (1900, 0). -/
theorem c6_counterexample :
    (m_listener_cursor_motion (m_listener_cursor_motion c6s0 2000 0) (-100) 0).pos
      = (1820, 0)
    ∧ closestPoint c6s0.region (0 + 2000 + -100, 0 + 0 + 0) = (1900, 0)
    ∧ ((1820 : Int), (0 : Int)) ≠ ((1900 : Int), (0 : Int)) := by
  refine ⟨by decide, by decide, by decide⟩

/-- C6 (amended): each motion event advances the cursor by that event's
delta and clamps the result to the union of output regions immediately, so
after two events the position is the twice-clamped value; when the
intermediate position is not clamped this equals the vector sum of the
deltas clamped to the region; and after every motion event the active
cursor image is the theme image named "default", overwriting any
client-supplied image. -/
theorem c6_motion_clamps_per_event (s : InputState) (d1x d1y d2x d2y : Int) :
    (m_listener_cursor_motion s d1x d1y).image
        = CursorImage.xcursorImage defaultCursorName
    ∧ (m_listener_cursor_motion (m_listener_cursor_motion s d1x d1y) d2x d2y).image
        = CursorImage.xcursorImage defaultCursorName
    ∧ (m_listener_cursor_motion (m_listener_cursor_motion s d1x d1y) d2x d2y).pos
        = closestPoint s.region
            ((closestPoint s.region (s.pos.1 + d1x, s.pos.2 + d1y)).1 + d2x,
             (closestPoint s.region (s.pos.1 + d1x, s.pos.2 + d1y)).2 + d2y)
    ∧ (closestPoint s.region (s.pos.1 + d1x, s.pos.2 + d1y)
          = (s.pos.1 + d1x, s.pos.2 + d1y)
        → (m_listener_cursor_motion (m_listener_cursor_motion s d1x d1y) d2x d2y).pos
            = closestPoint s.region (s.pos.1 + d1x + d2x, s.pos.2 + d1y + d2y)) := by
  refine ⟨rfl, rfl, rfl, ?_⟩
  intro hmid
  show closestPoint s.region
      ((closestPoint s.region (s.pos.1 + d1x, s.pos.2 + d1y)).1 + d2x,
       (closestPoint s.region (s.pos.1 + d1x, s.pos.2 + d1y)).2 + d2y)
    = closestPoint s.region (s.pos.1 + d1x + d2x, s.pos.2 + d1y + d2y)
  rw [hmid]

/-- C6 witness: from the origin with deltas (10, 5) then (3, 4) no clamping
engages, so the final position is the clamped vector sum. -/
theorem c6_motion_clamps_per_event_witness :
    (m_listener_cursor_motion (m_listener_cursor_motion c6s0 10 5) 3 4).pos
      = closestPoint c6s0.region (c6s0.pos.1 + 10 + 3, c6s0.pos.2 + 5 + 4) :=
  (c6_motion_clamps_per_event c6s0 10 5 3 4).2.2.2 (by decide)

/-- C7: the image-request handler replaces the cursor image with the
client-supplied surface and hotspot exactly when the requesting seat client
is the seat's currently focused pointer client, and otherwise leaves the
whole state unchanged. -/
theorem c7_request_cursor_focus (s : InputState) (sc surf : Option Nat)
    (hx hy : Int) :
    (s.focusedClient = sc →
        m_listener_request_cursor s sc surf hx hy
          = { s with image := CursorImage.surfaceImage surf hx hy })
    ∧ (s.focusedClient ≠ sc → m_listener_request_cursor s sc surf hx hy = s) := by
  constructor
  · intro h
    simp [m_listener_request_cursor, h]
  · intro h
    simp [m_listener_request_cursor, h]

/-- C7 witness: with focus on client 4, a request from client 4 replaces the
image and a request from client 5 changes nothing. -/
theorem c7_request_cursor_focus_witness :
    m_listener_request_cursor c7sA (some 4) (some 9) 1 2
      = { c7sA with image := CursorImage.surfaceImage (some 9) 1 2 }
    ∧ m_listener_request_cursor c7sA (some 5) (some 9) 1 2 = c7sA :=
  ⟨(c7_request_cursor_focus c7sA (some 4) (some 9) 1 2).1 (by decide),
   (c7_request_cursor_focus c7sA (some 5) (some 9) 1 2).2 (by decide)⟩

/-- C8: for each secondary protocol object of the display, the first
initialization request on a state whose field is still null calls the
create primitive (its counter increases by one) and stores and returns its
result, while any request on a state whose object already exists returns
that same object and leaves the state — counters included — unchanged. -/
theorem c8_lazy_init_idempotent (s t : display_state) (cx cc cs cd : Ptr)
    (vx vc vs vd : Nat)
    (hx : s.m_xdg_shell = none) (hc : s.m_compositor = none)
    (hsub : s.m_subcompositor = none) (hd : s.m_data_device_manager = none)
    (kx : t.m_xdg_shell = some vx) (kc : t.m_compositor = some vc)
    (ks : t.m_subcompositor = some vs) (kd : t.m_data_device_manager = some vd) :
    init_xdg_shell cx s
        = ({ s with m_xdg_shell := cx,
                    xdg_shell_creates := s.xdg_shell_creates + 1 }, cx)
    ∧ init_compositor cc s
        = ({ s with m_compositor := cc,
                    compositor_creates := s.compositor_creates + 1 }, cc)
    ∧ init_subcompositor cs s
        = ({ s with m_subcompositor := cs,
                    subcompositor_creates := s.subcompositor_creates + 1 }, cs)
    ∧ init_data_device_manager cd s
        = ({ s with m_data_device_manager := cd,
                    data_device_manager_creates := s.data_device_manager_creates + 1 },
           cd)
    ∧ init_xdg_shell cx t = (t, some vx)
    ∧ init_compositor cc t = (t, some vc)
    ∧ init_subcompositor cs t = (t, some vs)
    ∧ init_data_device_manager cd t = (t, some vd) := by
  refine ⟨?_, ?_, ?_, ?_, ?_, ?_, ?_, ?_⟩
  · simp [init_xdg_shell, hx]
  · simp [init_compositor, hc]
  · simp [init_subcompositor, hsub]
  · simp [init_data_device_manager, hd]
  · simp [init_xdg_shell, kx]
  · simp [init_compositor, kc]
  · simp [init_subcompositor, ks]
  · simp [init_data_device_manager, kd]

/-- C8 witness: initializing the xdg shell on the fresh display creates and
stores it; re-initializing on the fully initialized display returns the
stored object and changes nothing. -/
theorem c8_lazy_init_idempotent_witness :
    init_xdg_shell (some 5) display_state.initial
      = ({ display_state.initial with
            m_xdg_shell := some 5,
            xdg_shell_creates := 1 }, some 5)
    ∧ init_xdg_shell (some 9) c8full = (c8full, some 5) := by
  have h := c8_lazy_init_idempotent display_state.initial c8full
    (some 5) (some 6) (some 7) (some 8) 5 6 7 8 rfl rfl rfl rfl rfl rfl rfl rfl
  exact ⟨h.1, h.2.2.2.2.1⟩
